import Mathlib

/-!
Verification development for the Keeper Commander login-v3 flow
(`keepercommander/loginv3.py`): a shallow embedding of the login state
machine, the key-material resolver, the two-factor channel selection and
the SSO redirect token handling, with theorems about the behaviour the
specification describes.

Conventions of the embedding:
* byte strings are `List Nat`;
* cryptographic primitives (the repository's `crypto.py` / `utils.py`,
  which are external collaborators of this module) are modelled
  symbolically: a ciphertext records which primitive and which key
  produced it, and decryption succeeds exactly when the matching key is
  supplied;
* base64url encoding / decoding and UTF-8 encoding are bijections on the
  values this flow handles, so they are modelled as transparent
  injections;
* the transport is an oracle: a list of raw responses consumed one per
  remote call, each either an opaque payload (`bytes`), a structured
  error map (`dict`) or something else entirely (`other`);
* interactive sub-flows (device approval menu, hardware-key ceremony,
  the SSO browser round trip, §4.5 account-summary collaborators) are
  abstracted behind a `FlowEnv` oracle of their results, exactly at the
  `UserInteraction` boundary the specification declares external;
* Python exceptions are values of `PyError`; a Python function that
  falls off its end returns `Option.none` through an `Except … (Option …)`
  result, mirroring `return None`.
-/

/-- Symbolic symmetric keys: raw AES keys and the two PBKDF2-style
derivations (`crypto.derive_keyhash_v1` / `crypto.derive_keyhash_v2`).
Modelled from the spec: PBKDF2-style key-hash derivation over password,
salt and iteration count (the repository's `crypto.py` is not under
`src/`). -/
inductive SymKey where
  | raw (bytes : List Nat)
  | keyhashV1 (password : String) (salt : List Nat) (iterations : Nat)
  | keyhashV2 (domain : String) (password : String) (salt : List Nat) (iterations : Nat)
deriving DecidableEq, Repr

/-- Symbolic ciphertexts. Each constructor records the primitive and the
key material that produced the ciphertext; `rawBlob` stands for a
blob that no modelled key decrypts (e.g. a protobuf default). Modelled
from the spec: EC/RSA encrypt-decrypt, AES-GCM encrypt-decrypt and the
legacy encryption-params blob (the repository's `crypto.py` / `utils.py`
are not under `src/`). RSA plaintexts here are the UTF-8 strings the flow
decodes right after decrypting. -/
inductive Ciphertext where
  | ec (keyPair : Nat) (plain : List Nat)
  | rsa (keyPair : Nat) (plain : String)
  | aesV2 (key : SymKey) (plain : List Nat)
  | encParams (password : String) (plain : List Nat)
  | rawBlob (bytes : List Nat)
deriving DecidableEq, Repr

/-- Modelled from the spec: EC encryption of a data key under the device
public key (key pairs are named by a shared identifier). -/
def encrypt_ec (plain : List Nat) (publicKey : Nat) : Ciphertext :=
  Ciphertext.ec publicKey plain

/-- Modelled from the spec: EC decryption with the device private key;
succeeds exactly on a ciphertext produced under the matching public key. -/
def decrypt_ec (c : Ciphertext) (privateKey : Nat) : Except String (List Nat) :=
  match c with
  | Ciphertext.ec kp plain => if kp = privateKey then Except.ok plain else Except.error "EC decryption failed"
  | _ => Except.error "EC decryption failed"

/-- Modelled from the spec: RSA encryption of an SSO password payload
under the ephemeral public key. -/
def encrypt_rsa (plain : String) (publicKey : Nat) : Ciphertext :=
  Ciphertext.rsa publicKey plain

/-- Modelled from the spec: RSA decryption with the ephemeral private
key (the UTF-8 decode of the plaintext is folded in, both being
injective). -/
def decrypt_rsa (c : Ciphertext) (privateKey : Nat) : Except String String :=
  match c with
  | Ciphertext.rsa kp plain => if kp = privateKey then Except.ok plain else Except.error "RSA decryption failed"
  | _ => Except.error "RSA decryption failed"

/-- Modelled from the spec: AES-GCM (v2) encryption under a symmetric key. -/
def encrypt_aes_v2 (plain : List Nat) (key : SymKey) : Ciphertext :=
  Ciphertext.aesV2 key plain

/-- Modelled from the spec: AES-GCM (v2) decryption; succeeds exactly
under the key that encrypted. -/
def decrypt_aes_v2 (c : Ciphertext) (key : SymKey) : Except String (List Nat) :=
  match c with
  | Ciphertext.aesV2 k plain => if k = key then Except.ok plain else Except.error "AES decryption failed"
  | _ => Except.error "AES decryption failed"

/-- Modelled from the spec: `crypto.derive_keyhash_v1(password, salt,
iterations)`, the auth-verifier derivation feeding `RequiresAuthHash`. -/
def derive_keyhash_v1 (password : String) (salt : List Nat) (iterations : Nat) : SymKey :=
  SymKey.keyhashV1 password salt iterations

/-- Modelled from the spec: `crypto.derive_keyhash_v2(domain, password,
salt, iterations)`, the scheme-specific key hash used by `ByAlternate`. -/
def derive_keyhash_v2 (domain : String) (password : String) (salt : List Nat) (iterations : Nat) : SymKey :=
  SymKey.keyhashV2 domain password salt iterations

/-- Modelled from the spec: `utils.create_encryption_params(password, …,
data_key)`, the legacy password-derived envelope around the data key
(salt and iterations live inside the blob, so the symbolic form only
needs the password). -/
def create_encryption_params (password : String) (dataKey : List Nat) : Ciphertext :=
  Ciphertext.encParams password dataKey

/-- Modelled from the spec: `utils.decrypt_encryption_params(blob,
password)`; fails when the password does not match (or is missing, as
when Python would be handed `None`). -/
def decrypt_encryption_params (c : Ciphertext) (password : Option String) : Except String (List Nat) :=
  match password, c with
  | some pw, Ciphertext.encParams pw2 dataKey =>
      if pw2 = pw then Except.ok dataKey else Except.error "encryption params decryption failed"
  | _, _ => Except.error "encryption params decryption failed"

/-- Modelled from the spec: base64url decoding, treated as a transparent
injection of strings into byte lists. -/
def base64_url_decode (s : String) : List Nat :=
  s.toList.map Char.toNat

/-- Modelled from the spec: base64url encoding, the inverse injection. -/
def base64_url_encode (b : List Nat) : String :=
  String.mk (b.map Char.ofNat)

/-- Kernel-reducible model of Python's `str.lower`. -/
def pyLower (s : String) : String :=
  String.mk (s.toList.map Char.toLower)

/-- Kernel-reducible model of Python's `int(...)` on a string of decimal
digits (the flow only applies it after an `isnumeric` guard). -/
def pyInt (s : String) : Nat :=
  s.toList.foldl (fun acc c => acc * 10 + (c.toNat - 48)) 0

instance {ε α : Type} [DecidableEq ε] [DecidableEq α] : DecidableEq (Except ε α)
  | Except.ok x, Except.ok y =>
      if h : x = y then isTrue (by rw [h]) else isFalse (fun hc => by cases hc; exact h rfl)
  | Except.ok _, Except.error _ => isFalse (fun hc => by cases hc)
  | Except.error _, Except.ok _ => isFalse (fun hc => by cases hc)
  | Except.error x, Except.error y =>
      if h : x = y then isTrue (by rw [h]) else isFalse (fun hc => by cases hc; exact h rfl)

namespace proto

/-- Modelled from the spec: the server-declared `LoginState` enum
(`APIRequest_pb2` is not under `src/`); the claims depend only on the
fifteen handled codes being pairwise distinct. -/
def DEVICE_APPROVAL_REQUIRED : Nat := 2

def REQUIRES_2FA : Nat := 3

def REQUIRES_USERNAME : Nat := 4

def REDIRECT_ONSITE_SSO : Nat := 5

def REDIRECT_CLOUD_SSO : Nat := 6

def REQUIRES_DEVICE_ENCRYPTED_DATA_KEY : Nat := 7

def REQUIRES_ACCOUNT_CREATION : Nat := 8

def REGION_REDIRECT : Nat := 9

def REQUIRES_AUTH_HASH : Nat := 10

def DEVICE_ACCOUNT_LOCKED : Nat := 11

def DEVICE_LOCKED : Nat := 12

def ACCOUNT_LOCKED : Nat := 13

def LICENSE_EXPIRED : Nat := 14

def UPGRADE : Nat := 15

def LOGGED_IN : Nat := 16

/-- Modelled from the spec: the `EncryptedDataKeyType` (key-encryption
scheme) enum of the login response. -/
def NO_KEY : Nat := 0

def BY_DEVICE_PUBLIC_KEY : Nat := 1

def BY_PASSWORD : Nat := 2

def BY_ALTERNATE : Nat := 3

def BY_BIO : Nat := 4

/-- Modelled from the spec: the `SessionTokenType` restriction enum used
by post-login processing. -/
def NO_RESTRICTION : Nat := 0

def ACCOUNT_RECOVERY : Nat := 1

def SHARE_ACCOUNT : Nat := 2

def PURCHASE : Nat := 3

def RESTRICT : Nat := 4

/-- Modelled from the spec: two-factor channel type codes (the source
uses `TWO_FA_CODE_TOTP` in the supported set and a distinct
`TWO_FA_CT_TOTP` in the code-entry dispatch; both are kept distinct). -/
def TWO_FA_CODE_NONE : Nat := 19

def TWO_FA_CODE_TOTP : Nat := 20

def TWO_FA_CT_SMS : Nat := 21

def TWO_FA_CT_DUO : Nat := 22

def TWO_FA_CT_RSA : Nat := 23

def TWO_FA_CT_U2F : Nat := 24

def TWO_FA_CT_WEBAUTHN : Nat := 25

def TWO_FA_CT_DNA : Nat := 26

def TWO_FA_CT_TOTP : Nat := 27

end proto

/-- The fifteen login states the dispatch chain of `LoginV3Flow.login`
handles explicitly (source lines 66-192). -/
def handledLoginStates : List Nat :=
  [proto.DEVICE_APPROVAL_REQUIRED, proto.REQUIRES_2FA, proto.REQUIRES_USERNAME,
   proto.REDIRECT_ONSITE_SSO, proto.REDIRECT_CLOUD_SSO,
   proto.REQUIRES_DEVICE_ENCRYPTED_DATA_KEY, proto.REQUIRES_ACCOUNT_CREATION,
   proto.REGION_REDIRECT, proto.REQUIRES_AUTH_HASH, proto.DEVICE_ACCOUNT_LOCKED,
   proto.DEVICE_LOCKED, proto.ACCOUNT_LOCKED, proto.LICENSE_EXPIRED,
   proto.UPGRADE, proto.LOGGED_IN]

/-- One salt entry of the `RequiresAuthHash` response (`resp.salt` is a
repeated field). -/
structure SaltEntry where
  salt : List Nat := []
  iterations : Nat := 0
  name : String := ""
deriving DecidableEq, Repr

/-- Modelled from the spec: `api.get_correct_salt` (the repository's
`api.py` is not under `src/`) picks the applicable entry of the repeated
salt field; called only on a non-empty list. -/
def get_correct_salt (salts : List SaltEntry) : SaltEntry :=
  salts.headD {}

/-- The fields of `proto.LoginResponse` this flow reads. -/
structure LoginResponse where
  loginState : Nat := 0
  encryptedLoginToken : List Nat := []
  url : String := ""
  stateSpecificValue : String := ""
  salt : List SaltEntry := []
  encryptedDataKeyType : Nat := 0
  encryptedDataKey : Ciphertext := Ciphertext.rawBlob []
  primaryUsername : String := ""
  encryptedSessionToken : List Nat := []
  cloneCode : List Nat := []
  sessionTokenType : Nat := 0
deriving DecidableEq, Repr

/-- The `params.sso_login_info` dictionary built by `handleSsoRedirect`.
`sso_password = none` models the cloud variant, whose dictionary has no
`sso_password` key at all. -/
structure SsoLoginInfo where
  is_cloud : Bool := false
  sso_provider : String := ""
  idp_session_id : String := ""
  sso_url : String := ""
  sso_password : Option (List String) := none
deriving DecidableEq, Repr

/-- The slice of `KeeperParams` the login flow reads and writes. The
device key pair is named by one identifier (see `Ciphertext`). -/
structure KeeperParams where
  user : String := ""
  password : Option String := none
  server : String := ""
  clone_code : Option String := none
  device_private_key : Nat := 0
  salt : List Nat := []
  iterations : Nat := 0
  auth_verifier : Option SymKey := none
  data_key : Option (List Nat) := none
  session_token : Option String := none
  sso_login_info : Option SsoLoginInfo := none
  config_sso_master_password : Bool := false
deriving DecidableEq, Repr

/-- Python truthiness of an optional string: `None` and `''` are falsy. -/
def pyFalsyStr (o : Option String) : Bool :=
  match o with
  | none => true
  | some s => s = ""

/-- Modelled from the spec: `params.clear_session()` (the repository's
`params.py` is not under `src/`) discards the persisted session token. -/
def clear_session (p : KeeperParams) : KeeperParams :=
  { p with session_token := none }

/-- Python exceptions raised (or crashes hit) by the flow.
`transportFailure` is an artefact marking exhaustion of the transport
oracle, never produced by the translated code itself. -/
inductive PyError where
  | keeperApiError (code : String) (message : String)
  | genericException (message : String)
  | invalidDeviceToken
  | keyboardInterrupt
  | attributeError (message : String)
  | keyError (key : String)
  | typeError (message : String)
  | transportFailure (endpoint : String)
deriving DecidableEq, Repr

/-- Escape prefix `bcolors.UNDERLINE` used in the login-type labels. -/
def bcolorsUNDERLINE : String := "\x1b[4m"

/-- Translation of `LoginV3Flow.get_data_key` (source lines 261-292): dispatch on the
server-declared key-encryption scheme, decrypt the data key with the
matching credential, store it in the session and return the login-type
label. Unsupported schemes raise. -/
def get_data_key (params : KeeperParams) (resp : LoginResponse) :
    Except PyError (KeeperParams × String) :=
  if resp.encryptedDataKeyType = proto.BY_DEVICE_PUBLIC_KEY then
    match decrypt_ec resp.encryptedDataKey params.device_private_key with
    | Except.error e => Except.error (PyError.genericException e)
    | Except.ok decrypted_data_key =>
        let login_type_message :=
          if params.sso_login_info.isSome then bcolorsUNDERLINE ++ "SSO Login"
          else bcolorsUNDERLINE ++ "Persistent Login"
        Except.ok ({ params with data_key := some decrypted_data_key }, login_type_message)
  else if resp.encryptedDataKeyType = proto.BY_PASSWORD then
    match decrypt_encryption_params resp.encryptedDataKey params.password with
    | Except.error e => Except.error (PyError.genericException e)
    | Except.ok decrypted_data_key =>
        Except.ok ({ params with data_key := some decrypted_data_key }, bcolorsUNDERLINE ++ "Password")
  else if resp.encryptedDataKeyType = proto.BY_ALTERNATE then
    match params.password with
    | none => Except.error (PyError.typeError "derive_keyhash_v2 of None password")
    | some pw =>
        let decryption_key := derive_keyhash_v2 "data_key" pw params.salt params.iterations
        match decrypt_aes_v2 resp.encryptedDataKey decryption_key with
        | Except.error e => Except.error (PyError.genericException e)
        | Except.ok decrypted_data_key =>
            Except.ok ({ params with data_key := some decrypted_data_key }, bcolorsUNDERLINE ++ "Master Password")
  else if resp.encryptedDataKeyType = proto.NO_KEY ∨ resp.encryptedDataKeyType = proto.BY_BIO then
    Except.error (PyError.genericException
      ("Data Key type " ++ toString resp.encryptedDataKeyType ++ " decryption not implemented"))
  else
    Except.error (PyError.genericException
      ("Data Key type " ++ toString resp.encryptedDataKeyType ++ " decryption not implemented"))

/-- A login response carrying only key material, as consumed by
`get_data_key`. -/
def mkKeyResp (scheme : Nat) (c : Ciphertext) : LoginResponse :=
  { encryptedDataKeyType := scheme, encryptedDataKey := c }

example :
    get_data_key { device_private_key := 5 }
        (mkKeyResp proto.BY_DEVICE_PUBLIC_KEY (encrypt_ec [1, 2] 5)) =
      Except.ok ({ device_private_key := 5, data_key := some [1, 2] },
        bcolorsUNDERLINE ++ "Persistent Login") := rfl

example :
    get_data_key { password := some "pw", salt := [9], iterations := 1000 }
        (mkKeyResp proto.BY_ALTERNATE
          (encrypt_aes_v2 [4] (derive_keyhash_v2 "data_key" "pw" [9] 1000))) =
      Except.ok ({ password := some "pw", salt := [9], iterations := 1000, data_key := some [4] },
        bcolorsUNDERLINE ++ "Master Password") := rfl

example :
    get_data_key {} (mkKeyResp proto.NO_KEY (Ciphertext.rawBlob [])) =
      Except.error (PyError.genericException "Data Key type 0 decryption not implemented") := rfl

/-- A raw transport response: an opaque payload to deserialize, a
structured error map (string keys to string values), or an unexpected
value of any other type. -/
inductive RawResponse where
  | bytes (resp : LoginResponse)
  | dict (entries : List (String × String))
  | other
deriving DecidableEq, Repr

/-- Observable actions of the flow, recorded in submission order.
`startLoginCall` marks a fresh `start_login` request built by
`startLoginMessage` (no login token); `resumeLoginCall` marks a
`start_login` request built by `resume_login` (carrying a login token)
together with the login method actually placed in the request. -/
inductive FlowEvent where
  | startLoginCall (server : String) (loginType : String)
  | resumeLoginCall (server : String) (loginMethodSent : Option String)
  | registerDeviceInRegion (server : String)
  | promptUser
  | promptPassword
  | deriveAuthVerifier
  | validateAuthHashCall
deriving DecidableEq, Repr

/-- Modelled from the spec: the opaque client version string
(`rest_api.CLIENT_VERSION`; `rest_api.py` is not under `src/`). -/
def CLIENT_VERSION : String := "Commander"

/-- The fields of `proto.StartLoginRequest` this flow sets.
`loginMethod = none` is the protobuf default of an unset enum field. -/
structure StartLoginRequest where
  clientVersion : String := ""
  encryptedLoginToken : List Nat := []
  encryptedDeviceToken : List Nat := []
  username : String := ""
  loginType : String := ""
  loginMethod : Option String := none
  cloneCode : List Nat := []
deriving DecidableEq, Repr

/-- Request built by `LoginV3API.startLoginMessage` (source lines
957-966): login method always `EXISTING_ACCOUNT`; a truthy clone code is
attached and blanks the username. -/
def start_login_request (params : KeeperParams) (encryptedDeviceToken : List Nat)
    (cloneCode : Option (List Nat)) (loginType : String) : StartLoginRequest :=
  let rq : StartLoginRequest :=
    { clientVersion := CLIENT_VERSION
      username := pyLower params.user
      encryptedDeviceToken := encryptedDeviceToken
      loginType := loginType
      loginMethod := some "EXISTING_ACCOUNT" }
  match cloneCode with
  | some cc => if cc ≠ [] then { rq with cloneCode := cc, username := "" } else rq
  | none => rq

/-- Request built by `LoginV3API.resume_login` (source lines 920-928):
the login method (and the clone code) are set only when a truthy clone
code is passed, otherwise `loginMethod` keeps its protobuf default. -/
def resume_login_request (params : KeeperParams) (encryptedLoginToken : List Nat)
    (encryptedDeviceToken : List Nat) (cloneCode : Option (List Nat))
    (loginType : String) (loginMethod : String) : StartLoginRequest :=
  let rq : StartLoginRequest :=
    { clientVersion := CLIENT_VERSION
      encryptedLoginToken := encryptedLoginToken
      encryptedDeviceToken := encryptedDeviceToken
      username := pyLower params.user
      loginType := loginType }
  match cloneCode with
  | some cc => if cc ≠ [] then { rq with loginMethod := some loginMethod, cloneCode := cc } else rq
  | none => rq

/-- Result bundle of a remote-calling step: the Python result, the
updated session, the unconsumed transport oracle and the emitted trace. -/
structure NetOut (α : Type) where
  result : Except PyError α
  params : KeeperParams
  transport : List RawResponse
  trace : List FlowEvent

/-- Translation of `LoginV3API.register_device_in_region` (source lines 1118-1132): one
transport call; a structured error is tolerated only when its code is
`exists`, anything else structured raises `InvalidDeviceToken`. -/
def register_device_in_region (params : KeeperParams) (_encryptedDeviceToken : List Nat)
    (transport : List RawResponse) : NetOut Unit :=
  let ev := FlowEvent.registerDeviceInRegion params.server
  match transport with
  | [] => ⟨Except.error (PyError.transportFailure "register_device_in_region"), params, [], [ev]⟩
  | r :: rest =>
    match r with
    | RawResponse.dict d =>
        if d.lookup "error" = some "exists" then ⟨Except.ok (), params, rest, [ev]⟩
        else ⟨Except.error PyError.invalidDeviceToken, params, rest, [ev]⟩
    | _ => ⟨Except.ok (), params, rest, [ev]⟩

/-- Translation of `LoginV3API.startLoginMessage` (source lines 954-1005). One
transport call; an opaque payload deserializes to the login response; a
structured `region_redirect` error re-targets the server, re-registers
the device there and retries from scratch; `device_not_registered` with
the specific additional info re-registers and retries, otherwise raises;
other structured errors raise `KeeperApiError`; a structured map missing
`error`/`message` keys — or a response of any other type — falls off the
end of the Python function, returning `None`. The fuel argument only
bounds the retry recursion; each recursive call also consumes transport
responses. -/
def startLoginMessage : Nat → KeeperParams → List Nat → List RawResponse →
    Option (List Nat) → String → NetOut (Option LoginResponse)
  | 0, params, _, transport, _, _ =>
      ⟨Except.error (PyError.transportFailure "start_login"), params, transport, []⟩
  | Nat.succ fuel, params, encryptedDeviceToken, transport, cloneCode, loginType =>
    let ev := FlowEvent.startLoginCall params.server loginType
    let _rq := start_login_request params encryptedDeviceToken cloneCode loginType
    match transport with
    | [] => ⟨Except.error (PyError.transportFailure "start_login"), params, [], [ev]⟩
    | r :: rest =>
      match r with
      | RawResponse.bytes login_resp => ⟨Except.ok (some login_resp), params, rest, [ev]⟩
      | RawResponse.dict d =>
        if (d.lookup "error").isSome ∧ (d.lookup "message").isSome then
          if d.lookup "error" = some "region_redirect" then
            match d.lookup "region_host" with
            | none => ⟨Except.error (PyError.keyError "region_host"), params, rest, [ev]⟩
            | some host =>
              let params2 := { params with server := host }
              let reg := register_device_in_region params2 encryptedDeviceToken rest
              match reg.result with
              | Except.error e => ⟨Except.error e, reg.params, reg.transport, ev :: reg.trace⟩
              | Except.ok _ =>
                let out := startLoginMessage fuel params2 encryptedDeviceToken reg.transport none loginType
                ⟨out.result, out.params, out.transport, ev :: reg.trace ++ out.trace⟩
          else if d.lookup "error" = some "device_not_registered" then
            match d.lookup "additional_info" with
            | none => ⟨Except.error (PyError.keyError "additional_info"), params, rest, [ev]⟩
            | some ai =>
              if ai = "invalid device token, not registered in this region" then
                let reg := register_device_in_region params encryptedDeviceToken rest
                match reg.result with
                | Except.error e => ⟨Except.error e, reg.params, reg.transport, ev :: reg.trace⟩
                | Except.ok _ =>
                  let out := startLoginMessage fuel params encryptedDeviceToken reg.transport none loginType
                  ⟨out.result, out.params, out.transport, ev :: reg.trace ++ out.trace⟩
              else ⟨Except.error PyError.invalidDeviceToken, params, rest, [ev]⟩
          else
            let err_msg := (d.lookup "message").getD ""
            let err_msg :=
              if d.lookup "error" = some "device_not_registered" then
                err_msg ++ "\nRegister this user in the current region or change server region"
              else err_msg
            let err_msg :=
              match d.lookup "additional_info" with
              | some ai => if ai ≠ "" then err_msg ++ "\n" ++ ai else err_msg
              | none => err_msg
            ⟨Except.error (PyError.keeperApiError ((d.lookup "error").getD "") err_msg),
              params, rest, [ev]⟩
        else ⟨Except.ok none, params, rest, [ev]⟩
      | RawResponse.other => ⟨Except.ok none, params, rest, [ev]⟩

/-- Grant-permissions guidance appended to `restricted_client_type`
errors (source lines 32-35), abbreviated to its opening sentence. -/
def permissions_error_msg : String :=
  "Grant Commander SDK permissions to access Keeper"

/-- Translation of `LoginV3API.resume_login` (source lines 918-952): a `start_login`
call carrying the current login token. A structured `region_redirect`
error re-targets the server, re-registers the device and restarts via
`startLoginMessage` (fresh request, clone code dropped);
`restricted_client_type` raises with the permissions guidance appended;
other structured errors raise; a map missing `error`/`message` keys, or
a response of another type, returns `None`. -/
def resume_login (fuel : Nat) (params : KeeperParams) (encryptedLoginToken : List Nat)
    (encryptedDeviceToken : List Nat) (transport : List RawResponse)
    (cloneCode : Option (List Nat)) (loginType : String) (loginMethod : String) :
    NetOut (Option LoginResponse) :=
  let rq := resume_login_request params encryptedLoginToken encryptedDeviceToken cloneCode loginType loginMethod
  let ev := FlowEvent.resumeLoginCall params.server rq.loginMethod
  match transport with
  | [] => ⟨Except.error (PyError.transportFailure "start_login"), params, [], [ev]⟩
  | r :: rest =>
    match r with
    | RawResponse.bytes login_resp => ⟨Except.ok (some login_resp), params, rest, [ev]⟩
    | RawResponse.dict d =>
      if (d.lookup "error").isSome ∧ (d.lookup "message").isSome then
        if d.lookup "error" = some "region_redirect" then
          match d.lookup "region_host" with
          | none => ⟨Except.error (PyError.keyError "region_host"), params, rest, [ev]⟩
          | some host =>
            let params2 := { params with server := host }
            let reg := register_device_in_region params2 encryptedDeviceToken rest
            match reg.result with
            | Except.error e => ⟨Except.error e, reg.params, reg.transport, ev :: reg.trace⟩
            | Except.ok _ =>
              let out := startLoginMessage fuel params2 encryptedDeviceToken reg.transport none loginType
              ⟨out.result, out.params, out.transport, ev :: reg.trace ++ out.trace⟩
        else if d.lookup "error" = some "restricted_client_type" then
          ⟨Except.error (PyError.keeperApiError "restricted_client_type"
              (((d.lookup "message").getD "") ++ ".\n\n" ++ permissions_error_msg)),
            params, rest, [ev]⟩
        else
          ⟨Except.error (PyError.keeperApiError ((d.lookup "error").getD "")
              ((d.lookup "message").getD "")), params, rest, [ev]⟩
      else ⟨Except.ok none, params, rest, [ev]⟩
    | RawResponse.other => ⟨Except.ok none, params, rest, [ev]⟩

/-- The generic key-value token pasted back from an on-site SSO redirect
(a JSON object in the source); optional fields model key absence, and
`password` / `new_password` carry the RSA ciphertext obtained after
base64url decoding the field value. -/
structure SsoDict where
  email : Option String := none
  provider_name : Option String := none
  session_id : Option String := none
  password : Option Ciphertext := none
  new_password : Option Ciphertext := none
  login_token : Option (List Nat) := none
deriving DecidableEq, Repr

/-- On-site token processing inside `LoginV3Flow.handleSsoRedirect`
(source lines 611-635, the non-cloud branch of the `try`): record the
user's email, build `sso_login_info` with an empty `sso_password` queue,
decrypt the embedded `password` and then `new_password` fields with the
ephemeral RSA private key, appending each to the queue in that
submission order, and return an explicit login token if present, else
the original one. A decryption failure propagates as the exception the
surrounding menu loop catches and reports. -/
def handleSsoRedirectOnsiteToken (params : KeeperParams) (rsa_private : Nat)
    (sso_url : String) (login_token : List Nat) (sso_dict : SsoDict) :
    Except String (KeeperParams × List Nat) := do
  let params :=
    match sso_dict.email with
    | some e => { params with user := e }
    | none => params
  let info : SsoLoginInfo :=
    { is_cloud := false
      sso_provider := (sso_dict.provider_name.getD "")
      idp_session_id := (sso_dict.session_id.getD "")
      sso_url := sso_url
      sso_password := some [] }
  let info ←
    match sso_dict.password with
    | some c => do
        let pswd ← decrypt_rsa c rsa_private
        pure { info with sso_password := some ((info.sso_password.getD []) ++ [pswd]) }
    | none => pure info
  let info ←
    match sso_dict.new_password with
    | some c => do
        let pswd ← decrypt_rsa c rsa_private
        pure { info with sso_password := some ((info.sso_password.getD []) ++ [pswd]) }
    | none => pure info
  let params := { params with sso_login_info := some info }
  match sso_dict.login_token with
  | some tok => if tok ≠ [] then pure (params, tok) else pure (params, login_token)
  | none => pure (params, login_token)

/-- The SSO-candidate consumption step of the `RequiresAuthHash` loop
(source lines 148-151): when no password is set and an SSO session with
a non-empty `sso_password` queue exists, `params.password =
queue.pop()` — Python's argument-less `pop`, which removes and returns
the LAST element. -/
def ssoQueuePop (params : KeeperParams) : KeeperParams :=
  if pyFalsyStr params.password ∧ params.sso_login_info.isSome then
    match params.sso_login_info with
    | some info =>
      match info.sso_password with
      | some qs =>
        match qs.getLast? with
        | some pswd =>
            { params with password := some pswd,
                          sso_login_info := some { info with sso_password := some qs.dropLast } }
        | none => params
      | none => params
    | none => params
  else params

/-- The username prompt loop of
`CommonHelperMethods.fill_password_with_prompt_if_missing` (source lines
1237-1238): prompt until a non-empty username; each prompt consumes one
oracle input. An exhausted oracle leaves the username empty (a live
terminal never exhausts). -/
def promptUserLoop : KeeperParams → List String → KeeperParams × List String × List FlowEvent
  | params, [] => (params, [], [])
  | params, i :: rest =>
    if params.user = "" then
      let out := promptUserLoop { params with user := i } rest
      (out.1, out.2.1, FlowEvent.promptUser :: out.2.2)
    else (params, i :: rest, [])

/-- Result bundle of the interactive password-fill step. -/
structure FillOut where
  params : KeeperParams
  userInputs : List String
  passwordInputs : List String
  trace : List FlowEvent

/-- Translation of `CommonHelperMethods.fill_password_with_prompt_if_missing` (source
lines 1235-1247): ensure a username, then prompt once for the password
when it is falsy; an empty answer (or an exhausted input oracle,
standing for the interrupt/EOF paths) leaves the password missing. -/
def fill_password_with_prompt_if_missing (params : KeeperParams)
    (userInputs passwordInputs : List String) : FillOut :=
  let u := promptUserLoop params userInputs
  let params := u.1
  if pyFalsyStr params.password then
    match passwordInputs with
    | [] => ⟨params, u.2.1, [], u.2.2 ++ [FlowEvent.promptPassword]⟩
    | pw :: rest => ⟨{ params with password := some pw }, u.2.1, rest, u.2.2 ++ [FlowEvent.promptPassword]⟩
  else ⟨params, u.2.1, passwordInputs, u.2.2⟩

/-- Result bundle of the `RequiresAuthHash` password loop. -/
structure AuthHashOut where
  result : Except PyError (Option LoginResponse)
  params : KeeperParams
  transport : List RawResponse
  userInputs : List String
  passwordInputs : List String
  trace : List FlowEvent

/-- The inner `while True` of the `RequiresAuthHash` branch (source
lines 147-169): take an SSO-queued candidate if the password is missing
(last-appended first, see `ssoQueuePop`), otherwise prompt; an empty
password returns `None` from `login` (user cancelled); derive the auth
verifier over the response salt and submit `validate_auth_hash`; on an
`auth_failed` error clear the password and loop, on any other structured
error raise. The fuel bounds the retries; each retry consumes one
transport response. -/
def authHashLoop : Nat → KeeperParams → List Nat → Nat → List RawResponse →
    List String → List String → AuthHashOut
  | 0, params, _, _, transport, userInputs, passwordInputs =>
      ⟨Except.error (PyError.transportFailure "validate_auth_hash"), params, transport,
        userInputs, passwordInputs, []⟩
  | Nat.succ fuel, params, salt_bytes, salt_iterations, transport, userInputs, passwordInputs =>
    let params := ssoQueuePop params
    let f := fill_password_with_prompt_if_missing params userInputs passwordInputs
    let params := f.params
    match params.password with
    | none => ⟨Except.ok none, params, transport, f.userInputs, f.passwordInputs, f.trace⟩
    | some pw =>
      if pw = "" then ⟨Except.ok none, params, transport, f.userInputs, f.passwordInputs, f.trace⟩
      else
        let params :=
          { params with salt := salt_bytes, iterations := salt_iterations,
                        auth_verifier := some (derive_keyhash_v1 pw salt_bytes salt_iterations) }
        let tr := f.trace ++ [FlowEvent.deriveAuthVerifier, FlowEvent.validateAuthHashCall]
        match transport with
        | [] => ⟨Except.error (PyError.transportFailure "validate_auth_hash"), params, [],
                  f.userInputs, f.passwordInputs, tr⟩
        | r :: rest =>
          match r with
          | RawResponse.bytes login_resp =>
              ⟨Except.ok (some login_resp), params, rest, f.userInputs, f.passwordInputs, tr⟩
          | RawResponse.dict d =>
            match d.lookup "error" with
            | none => ⟨Except.error (PyError.keyError "error"), params, rest,
                        f.userInputs, f.passwordInputs, tr⟩
            | some code =>
              if code = "auth_failed" then
                let params := { params with password := none }
                let out := authHashLoop fuel params salt_bytes salt_iterations rest
                  f.userInputs f.passwordInputs
                ⟨out.result, out.params, out.transport, out.userInputs, out.passwordInputs,
                  tr ++ out.trace⟩
              else
                match d.lookup "message" with
                | none => ⟨Except.error (PyError.keyError "message"), params, rest,
                            f.userInputs, f.passwordInputs, tr⟩
                | some m => ⟨Except.error (PyError.keeperApiError code m), params, rest,
                              f.userInputs, f.passwordInputs, tr⟩
          | RawResponse.other =>
              ⟨Except.error (PyError.typeError "response is not subscriptable"), params, rest,
                f.userInputs, f.passwordInputs, tr⟩

/-- A two-factor channel entry of the login response. -/
structure TwoFactorChannel where
  channelType : Nat := 0
  channelName : String := ""
  phoneNumber : String := ""
  channel_uid : List Nat := []
  challenge : String := ""
deriving DecidableEq, Repr

/-- The channel types `handleTwoFactor` supports (source lines 660-661). -/
def supported_channels : List Nat :=
  [proto.TWO_FA_CODE_TOTP, proto.TWO_FA_CT_SMS, proto.TWO_FA_CT_DUO, proto.TWO_FA_CT_RSA,
   proto.TWO_FA_CT_U2F, proto.TWO_FA_CT_WEBAUTHN, proto.TWO_FA_CT_DNA]

/-- Channel filtering of `handleTwoFactor` (source lines 662-665): keep
supported channel types; once the process-wide FIDO warning fired, hide
hardware-key channels as well. -/
def filterChannels (warned_on_fido_package : Bool) (channels : List TwoFactorChannel) :
    List TwoFactorChannel :=
  let cs := channels.filter (fun x => supported_channels.contains x.channelType)
  if warned_on_fido_package then
    cs.filter (fun x => !([proto.TWO_FA_CT_U2F, proto.TWO_FA_CT_WEBAUTHN].contains x.channelType))
  else cs

/-- ASCII model of Python's `str.isnumeric` as the flow uses it: a
non-empty string of decimal digits (Unicode-only numerics, on which
`isnumeric` and `int` disagree, are outside the model). -/
def pyIsNumeric (s : String) : Bool :=
  (s ≠ "") && s.toList.all Char.isDigit

/-- The 1-based index computed at source line 677: `1 if not selection
else int(selection)`. -/
def pySelIdx (selection : String) : Nat :=
  if selection = "" then 1 else pyInt selection

/-- Channel selection of `handleTwoFactor` (source lines 672-685): `q`
raises `KeyboardInterrupt`; a failed `isnumeric` or range assertion is
caught, reported as an invalid entry and returns `None` (no token); a
valid selection yields the 1-based index. -/
def handleTwoFactorSelect (channels : List TwoFactorChannel) (selection : String) :
    Except PyError (Option Nat) :=
  if selection = "q" then Except.error PyError.keyboardInterrupt
  else if pyIsNumeric selection = false then Except.ok none
  else
    let idx := pySelIdx selection
    if 1 ≤ idx ∧ idx ≤ channels.length then Except.ok (some idx)
    else Except.ok none

example : handleTwoFactorSelect [{}] "1" = Except.ok (some 1) := rfl

example : handleTwoFactorSelect [{}] "2" = Except.ok none := rfl

example : handleTwoFactorSelect [{}] "0" = Except.ok none := rfl

example : handleTwoFactorSelect [{}] "abc" = Except.ok none := rfl

example : handleTwoFactorSelect [{}] "" = Except.ok none := rfl

example : handleTwoFactorSelect [{}] "q" = Except.error PyError.keyboardInterrupt := rfl

/-- Oracle of the interactive sub-flows and external collaborators the
state machine delegates to (the `UserInteraction` / account-summary
boundary the specification declares external): the outcome of the
device-approval menu, of `handleTwoFactor` past selection, of the SSO
browser round trip, the queued terminal inputs, and the §4.5 sub-flow
results used by `post_login_processing`. -/
structure FlowEnv where
  verifyDeviceApproved : Bool := false
  twoFactorToken : Option (List Nat) := none
  ssoQuit : Bool := false
  ssoToken : Option (List Nat) := none
  ssoDataKeyQuit : Bool := false
  userInputs : List String := []
  passwordInputs : List String := []
  changeMasterPassword : Bool := false
  accountTransferAccepted : Bool := false
deriving DecidableEq, Repr

/-- The mutable state of one iteration of the `while True` loop of
`LoginV3Flow.login`: the session, the current login response (`none`
when a remote call fell off its end returning `None`), the decoded clone
code, the alternate-login flag, the device token, and the oracles. -/
structure LoopState where
  params : KeeperParams
  resp : Option LoginResponse
  clone_code_bytes : Option (List Nat)
  is_alternate_login : Bool
  encryptedDeviceToken : List Nat
  transport : List RawResponse
  env : FlowEnv
deriving DecidableEq, Repr

/-- Outcome of one loop iteration: continue with an updated state,
return from `login` normally, or propagate a raised exception (carrying
the session as it stands at the raise). -/
inductive StepOut where
  | next (st : LoopState)
  | finished (params : KeeperParams)
  | raised (e : PyError) (params : KeeperParams)
deriving DecidableEq, Repr

/-- Modelled from the spec: `CommonHelperMethods.bytes_to_url_safe_str`,
the transparent inverse injection of `base64_url_decode`. -/
def bytes_to_url_safe_str (b : List Nat) : String :=
  base64_url_encode b

/-- Translation of `LoginV3Flow.post_login_processing` (source lines 196-259): adopt
the response identity, store the session token, resolve the data key
via `get_data_key`, clear the password, persist the clone code, then
branch on the session-token restriction: `PURCHASE`/`RESTRICT` clears
the session token and raises (expired account); `ACCOUNT_RECOVERY` runs
the master-password-change sub-flow (outcome from the oracle), returning
`False` on success and clearing the session and raising on failure;
`SHARE_ACCOUNT` asks for transfer consent (oracle), returning `False`
when accepted and clearing the session and raising when declined; any
other restriction raises; no restriction returns `True`. The
account-summary, enterprise-key and breach-watch population steps call
external collaborators and are not modelled. -/
def post_login_processing (env : FlowEnv) (params : KeeperParams) (resp : LoginResponse) :
    Except PyError Bool × KeeperParams :=
  let params :=
    { params with
        user := resp.primaryUsername
        session_token := some (bytes_to_url_safe_str resp.encryptedSessionToken) }
  match get_data_key params resp with
  | Except.error e => (Except.error e, params)
  | Except.ok (params2, _login_type_message) =>
    let params :=
      { params2 with
          password := none
          clone_code := some (base64_url_encode resp.cloneCode) }
    if resp.sessionTokenType ≠ proto.NO_RESTRICTION then
      if resp.sessionTokenType = proto.PURCHASE ∨ resp.sessionTokenType = proto.RESTRICT then
        let params := { params with session_token := none }
        (Except.error (PyError.genericException
          ("Your Keeper account has expired. Please open the Keeper app to renew or visit " ++
           "the Web Vault at https://keepersecurity.com/vault")), params)
      else if resp.sessionTokenType = proto.ACCOUNT_RECOVERY then
        if env.changeMasterPassword then (Except.ok false, params)
        else
          let params := clear_session params
          (Except.error (PyError.genericException "Change password failed"), params)
      else if resp.sessionTokenType = proto.SHARE_ACCOUNT then
        if env.accountTransferAccepted then (Except.ok false, params)
        else
          let params := clear_session params
          (Except.error (PyError.genericException "Account transfer logout"), params)
      else
        (Except.error (PyError.genericException
          "Please log into the web Vault to update your account settings."), params)
    else (Except.ok true, params)

/-- Message of the `account-recovery-required` error raised on an empty
salt (source lines 139-141). -/
def accountRecoveryRequiredMsg : String :=
  "Your account requires account recovery in order to use a Master Password login method.\n" ++
  "Account recovery (Forgot Password) is available in the Web Vault or Enterprise Console."

/-- Message of the Python `AttributeError` hit when the loop reads
`resp.loginState` off a `None` response. -/
def noneLoginStateMsg : String :=
  "NoneType object has no attribute loginState"

/-- One iteration of the `while True` dispatch of `LoginV3Flow.login`
(source lines 62-194), a faithful translation of its `elif` chain.
Interactive sub-flows (`verifyDevice`, `handleTwoFactor` past channel
selection, `handleSsoRedirect`, `handleSsoRequestDataKey`,
master-password change) report their outcomes through the `FlowEnv`
oracle; everything else — remote calls, salt checks, session mutation,
raising — follows the source line by line. A `None` response (see
`startLoginMessage` / `resume_login`) crashes with an `AttributeError`
at the `resp.loginState` read, as in Python. -/
def loginStep (fuel : Nat) (st : LoopState) : StepOut × List FlowEvent :=
  match st.resp with
  | none => (StepOut.raised (PyError.attributeError noneLoginStateMsg) st.params, [])
  | some resp =>
    if resp.loginState = proto.DEVICE_APPROVAL_REQUIRED then
      if st.env.verifyDeviceApproved then
        let out := startLoginMessage fuel st.params st.encryptedDeviceToken st.transport none "NORMAL"
        match out.result with
        | Except.error e => (StepOut.raised e out.params, out.trace)
        | Except.ok none =>
            -- source line 78 reads `resp.loginState` right away for the approval banner
            (StepOut.raised (PyError.attributeError noneLoginStateMsg) out.params, out.trace)
        | Except.ok (some r2) =>
            (StepOut.next { st with params := out.params, resp := some r2, transport := out.transport },
              out.trace)
      else (StepOut.next st, [])
    else if resp.loginState = proto.REQUIRES_2FA then
      match st.env.twoFactorToken with
      | some encryptedLoginToken =>
        let login_type := if st.is_alternate_login then "ALTERNATE" else "NORMAL"
        let out := resume_login fuel st.params encryptedLoginToken st.encryptedDeviceToken
          st.transport none login_type "EXISTING_ACCOUNT"
        match out.result with
        | Except.error e => (StepOut.raised e out.params, out.trace)
        | Except.ok r =>
            (StepOut.next { st with params := out.params, resp := r, transport := out.transport },
              out.trace)
      | none => (StepOut.next st, [])
    else if resp.loginState = proto.REQUIRES_USERNAME then
      let u := promptUserLoop st.params st.env.userInputs
      let env2 := { st.env with userInputs := u.2.1 }
      if resp.encryptedLoginToken ≠ [] then
        let out := resume_login fuel u.1 resp.encryptedLoginToken st.encryptedDeviceToken
          st.transport st.clone_code_bytes "NORMAL" "EXISTING_ACCOUNT"
        match out.result with
        | Except.error e => (StepOut.raised e out.params, u.2.2 ++ out.trace)
        | Except.ok r =>
            (StepOut.next
              { st with
                  params := out.params
                  resp := r
                  transport := out.transport
                  env := env2 }, u.2.2 ++ out.trace)
      else (StepOut.next { st with params := u.1, env := env2 }, u.2.2)
    else if resp.loginState = proto.REDIRECT_ONSITE_SSO ∨ resp.loginState = proto.REDIRECT_CLOUD_SSO then
      if st.env.ssoQuit then (StepOut.raised PyError.keyboardInterrupt st.params, [])
      else
        match st.env.ssoToken with
        | some encryptedLoginToken =>
          let out := resume_login fuel st.params encryptedLoginToken st.encryptedDeviceToken
            st.transport none "NORMAL" "AFTER_SSO"
          match out.result with
          | Except.error e => (StepOut.raised e out.params, out.trace)
          | Except.ok r =>
              (StepOut.next { st with params := out.params, resp := r, transport := out.transport },
                out.trace)
        | none =>
          let out := startLoginMessage fuel st.params st.encryptedDeviceToken st.transport none "ALTERNATE"
          match out.result with
          | Except.error e => (StepOut.raised e out.params, out.trace)
          | Except.ok r =>
              (StepOut.next
                { st with
                    params := out.params
                    resp := r
                    transport := out.transport
                    is_alternate_login := true }, out.trace)
    else if resp.loginState = proto.REQUIRES_DEVICE_ENCRYPTED_DATA_KEY then
      if st.env.ssoDataKeyQuit then (StepOut.raised PyError.keyboardInterrupt st.params, [])
      else
        let out := resume_login fuel st.params resp.encryptedLoginToken st.encryptedDeviceToken
          st.transport none "NORMAL" "EXISTING_ACCOUNT"
        match out.result with
        | Except.error e => (StepOut.raised e out.params, out.trace)
        | Except.ok r =>
            (StepOut.next { st with params := out.params, resp := r, transport := out.transport },
              out.trace)
    else if resp.loginState = proto.REQUIRES_ACCOUNT_CREATION then
      -- source line 129 applies `%` to a format string with no placeholder,
      -- so Python raises a TypeError instead of the intended Exception
      (StepOut.raised (PyError.typeError "not all arguments converted during string formatting")
        st.params, [])
    else if resp.loginState = proto.REGION_REDIRECT then
      let params2 := { st.params with server := resp.stateSpecificValue }
      let reg := register_device_in_region params2 st.encryptedDeviceToken st.transport
      match reg.result with
      | Except.error e => (StepOut.raised e reg.params, reg.trace)
      | Except.ok _ =>
        let out := startLoginMessage fuel params2 st.encryptedDeviceToken reg.transport none "NORMAL"
        match out.result with
        | Except.error e => (StepOut.raised e out.params, reg.trace ++ out.trace)
        | Except.ok r =>
            (StepOut.next { st with params := out.params, resp := r, transport := out.transport },
              reg.trace ++ out.trace)
    else if resp.loginState = proto.REQUIRES_AUTH_HASH then
      if resp.salt.length = 0 then
        (StepOut.raised (PyError.keeperApiError "account-recovery-required" accountRecoveryRequiredMsg)
          st.params, [])
      else
        let se := get_correct_salt resp.salt
        let ah := authHashLoop fuel st.params se.salt se.iterations st.transport
          st.env.userInputs st.env.passwordInputs
        let env2 := { st.env with userInputs := ah.userInputs, passwordInputs := ah.passwordInputs }
        match ah.result with
        | Except.error e => (StepOut.raised e ah.params, ah.trace)
        | Except.ok none => (StepOut.finished ah.params, ah.trace)
        | Except.ok (some resp2) =>
          let post := post_login_processing st.env ah.params resp2
          match post.1 with
          | Except.error e => (StepOut.raised e post.2, ah.trace)
          | Except.ok true => (StepOut.finished post.2, ah.trace)
          | Except.ok false =>
            let ccb :=
              match post.2.clone_code with
              | some cc => if cc ≠ "" then some (base64_url_decode cc) else none
              | none => none
            let out := startLoginMessage fuel post.2 st.encryptedDeviceToken ah.transport ccb "NORMAL"
            match out.result with
            | Except.error e => (StepOut.raised e out.params, ah.trace ++ out.trace)
            | Except.ok r =>
                (StepOut.next
                  { st with
                      params := out.params
                      resp := r
                      transport := out.transport
                      clone_code_bytes := ccb
                      env := env2 }, ah.trace ++ out.trace)
    else if resp.loginState = proto.DEVICE_ACCOUNT_LOCKED then
      (StepOut.raised (PyError.genericException "\n*** Device for this account is locked ***\n")
        (clear_session st.params), [])
    else if resp.loginState = proto.DEVICE_LOCKED then
      (StepOut.raised (PyError.genericException "\n*** This device is locked ***\n")
        (clear_session st.params), [])
    else if resp.loginState = proto.ACCOUNT_LOCKED then
      (StepOut.raised (PyError.genericException
        ("\n*** User account `" ++ st.params.user ++ "` is LOCKED ***\n")) st.params, [])
    else if resp.loginState = proto.LICENSE_EXPIRED then
      (StepOut.raised (PyError.genericException "\n*** Your Keeper license has expired ***\n")
        st.params, [])
    else if resp.loginState = proto.UPGRADE then
      (StepOut.raised (PyError.genericException
        "Application or device is out of date and requires an update.") st.params, [])
    else if resp.loginState = proto.LOGGED_IN then
      let post := post_login_processing st.env st.params resp
      match post.1 with
      | Except.error e => (StepOut.raised e post.2, [])
      | Except.ok _ => (StepOut.finished post.2, [])
    else
      (StepOut.raised (PyError.genericException
        ("UNKNOWN LOGIN STATE [" ++ toString resp.loginState ++ "]")) st.params, [])

/-- Final outcome of the login loop; `outOfFuel` marks exhaustion of the
iteration bound, never a behaviour of the code. -/
inductive LoopResult where
  | ok (params : KeeperParams)
  | raised (e : PyError) (params : KeeperParams)
  | outOfFuel
deriving DecidableEq, Repr

/-- The `while True` loop of `LoginV3Flow.login`, iterating `loginStep`
until the flow returns or raises (or the fuel bound is hit). -/
def loginLoop : Nat → LoopState → LoopResult × List FlowEvent
  | 0, _ => (LoopResult.outOfFuel, [])
  | Nat.succ fuel, st =>
    match loginStep (Nat.succ fuel) st with
    | (StepOut.next st2, tr) =>
      let out := loginLoop fuel st2
      (out.1, tr ++ out.2)
    | (StepOut.finished params, tr) => (LoopResult.ok params, tr)
    | (StepOut.raised e params, tr) => (LoopResult.raised e params, tr)

/-- Translation of the `LoginV3Flow.login` entry (source lines 41-60): decode the persisted
clone code unless a fresh login is forced, reset `sso_login_info`,
choose the `ALTERNATE` login type when the configuration pins an SSO
master password, issue the initial start-login and enter the loop. The
device registration of `get_device_id` is prior context; its resulting
token is a parameter. -/
def login (fuel : Nat) (params : KeeperParams) (new_login : Bool)
    (encryptedDeviceToken : List Nat) (transport : List RawResponse) (env : FlowEnv) :
    LoopResult × List FlowEvent :=
  let clone_code_bytes :=
    if new_login then none
    else
      match params.clone_code with
      | some cc => if cc ≠ "" then some (base64_url_decode cc) else none
      | none => none
  let params := { params with sso_login_info := none }
  let login_type := if params.config_sso_master_password then "ALTERNATE" else "NORMAL"
  let out := startLoginMessage fuel params encryptedDeviceToken transport clone_code_bytes login_type
  match out.result with
  | Except.error e => (LoopResult.raised e out.params, out.trace)
  | Except.ok r =>
    let lo := loginLoop fuel
      { params := out.params, resp := r, clone_code_bytes := clone_code_bytes,
        is_alternate_login := false, encryptedDeviceToken := encryptedDeviceToken,
        transport := out.transport, env := env }
    (lo.1, out.trace ++ lo.2)

/-- C1: for each supported key-encryption scheme — `ByDevicePublicKey`
with the device EC private key, `ByPassword` with the plaintext
password, `ByAlternate` with the password-salt-iterations derived key —
resolving the encryption of a data key with the matching credentials
recovers the original plaintext data key, and `get_data_key` stores the
recovered key in the session (`data_key := some k` in the returned
params), labelling the path as the source does. -/
theorem get_data_key_roundtrip (p : KeeperParams) (k : List Nat) (kp : Nat)
    (pw : String) (salt : List Nat) (iters : Nat) :
    get_data_key { p with device_private_key := kp }
        (mkKeyResp proto.BY_DEVICE_PUBLIC_KEY (encrypt_ec k kp)) =
      Except.ok ({ p with device_private_key := kp, data_key := some k },
        if p.sso_login_info.isSome then bcolorsUNDERLINE ++ "SSO Login"
        else bcolorsUNDERLINE ++ "Persistent Login")
    ∧ get_data_key { p with password := some pw }
        (mkKeyResp proto.BY_PASSWORD (create_encryption_params pw k)) =
      Except.ok ({ p with password := some pw, data_key := some k },
        bcolorsUNDERLINE ++ "Password")
    ∧ get_data_key { p with password := some pw, salt := salt, iterations := iters }
        (mkKeyResp proto.BY_ALTERNATE
          (encrypt_aes_v2 k (derive_keyhash_v2 "data_key" pw salt iters))) =
      Except.ok ({ p with password := some pw, salt := salt, iterations := iters, data_key := some k },
        bcolorsUNDERLINE ++ "Master Password") := by
  refine ⟨?_, ?_, ?_⟩ <;>
    simp [get_data_key, mkKeyResp, proto.BY_DEVICE_PUBLIC_KEY, proto.BY_PASSWORD,
      proto.BY_ALTERNATE, encrypt_ec, decrypt_ec, create_encryption_params,
      decrypt_encryption_params, encrypt_aes_v2, decrypt_aes_v2, derive_keyhash_v2]

/-- C8: for every key-encryption scheme other than `ByDevicePublicKey`,
`ByPassword` and `ByAlternate` (so in particular `NoKey` and `ByBio`),
`get_data_key` raises the "decryption not implemented" error carrying
the raw scheme value; no updated session escapes, so the session's data
key stays as it was. -/
theorem get_data_key_unsupported_scheme (p : KeeperParams) (c : Ciphertext) (scheme : Nat)
    (h1 : scheme ≠ proto.BY_DEVICE_PUBLIC_KEY) (h2 : scheme ≠ proto.BY_PASSWORD)
    (h3 : scheme ≠ proto.BY_ALTERNATE) :
    get_data_key p (mkKeyResp scheme c) =
      Except.error (PyError.genericException
        ("Data Key type " ++ toString scheme ++ " decryption not implemented")) := by
  simp [get_data_key, mkKeyResp, h1, h2, h3]

theorem get_data_key_unsupported_scheme_witness :
    get_data_key {} (mkKeyResp proto.NO_KEY (Ciphertext.rawBlob [])) =
      Except.error (PyError.genericException "Data Key type 0 decryption not implemented") :=
  get_data_key_unsupported_scheme {} (Ciphertext.rawBlob []) proto.NO_KEY
    (by decide) (by decide) (by decide)

/-- C9 counterexample: the selection input `q` is non-numeric, yet the
channel-selection step does not report an invalid entry returning no
token — it raises `KeyboardInterrupt` to the caller, so the claim as
stated fails at this input. -/
theorem handleTwoFactorSelect_q_raises :
    pyIsNumeric "q" = false ∧
      handleTwoFactorSelect [] "q" = Except.error PyError.keyboardInterrupt ∧
      handleTwoFactorSelect [] "q" ≠ Except.ok none := by
  exact ⟨rfl, rfl, by decide⟩

/-- C9 as amended: for every selection input other than the quit command
`q`, a non-numeric input or a numeric one whose 1-based index falls
outside `1 ≤ i ≤ len(channels)` never raises: the assertion failure is
caught, an invalid entry is reported and no token is returned. -/
theorem handleTwoFactorSelect_invalid_returns_none (channels : List TwoFactorChannel)
    (selection : String) (hq : selection ≠ "q")
    (hbad : pyIsNumeric selection = false ∨
      ¬(1 ≤ pySelIdx selection ∧ pySelIdx selection ≤ channels.length)) :
    handleTwoFactorSelect channels selection = Except.ok none := by
  rcases hbad with hb | hb
  · simp [handleTwoFactorSelect, hq, hb]
  · by_cases hn : pyIsNumeric selection = false
    · simp [handleTwoFactorSelect, hq, hn]
    · simp [handleTwoFactorSelect, hq, hn, hb]

theorem handleTwoFactorSelect_invalid_returns_none_witness :
    handleTwoFactorSelect [] "abc" = Except.ok none :=
  handleTwoFactorSelect_invalid_returns_none [] "abc" (by decide) (Or.inl (by decide))

/-- Concrete on-site SSO token carrying both an embedded `password` and
a `new_password` field, encrypted under the ephemeral key pair `7`. -/
def c2SsoDict : SsoDict :=
  { password := some (encrypt_rsa "pw1" 7), new_password := some (encrypt_rsa "pw2" 7) }

/-- Session state right after the on-site token above was processed:
candidates queued in submission order, `pw1` (the `password` field)
first. -/
def c2Params : KeeperParams :=
  { user := "a@b.com",
    sso_login_info := some
      { is_cloud := false, sso_provider := "", idp_session_id := "", sso_url := "u",
        sso_password := some ["pw1", "pw2"] } }

/-- C2 counterexample: the on-site token handler queues the candidates
in submission order `[pw1, pw2]`, but the auth-hash flow's consumption
step (`sso_password.pop()`, Python's argument-less `pop`) takes the LAST
element: the candidate tried first is `pw2`, the one appended second —
not first-in-first-used as claimed. -/
theorem ssoQueue_first_used_is_last_appended :
    handleSsoRedirectOnsiteToken { user := "a@b.com" } 7 "u" [1] c2SsoDict =
      Except.ok (c2Params, [1]) ∧
    (ssoQueuePop c2Params).password = some "pw2" ∧
    (some "pw2" : Option String) ≠ some "pw1" := by
  exact ⟨rfl, rfl, by decide⟩

/-- C2 as amended: SSO password candidates recovered from an on-site
token are appended to the queue in submission order (`password` field
first, then `new_password`), and the auth-hash flow consumes them
last-in-first-used: with a non-empty queue `qs ++ [p]`, the candidate
tried first is `p`, the most recently appended, leaving `qs` queued. -/
theorem ssoPasswords_appended_in_order_consumed_lifo (p : KeeperParams) (kp : Nat)
    (url : String) (lt : List Nat) (p1 p2 : String) (qs : List String) (pswd : String)
    (info : SsoLoginInfo) :
    handleSsoRedirectOnsiteToken p kp url lt
        { password := some (encrypt_rsa p1 kp), new_password := some (encrypt_rsa p2 kp) } =
      Except.ok
        ({ p with sso_login_info := some { is_cloud := false, sso_provider := "", idp_session_id := "", sso_url := url, sso_password := some [p1, p2] } },
         lt)
    ∧ ssoQueuePop { p with password := none, sso_login_info := some { info with sso_password := some (qs ++ [pswd]) } } =
        { p with password := some pswd, sso_login_info := some { info with sso_password := some qs } } := by
  constructor
  · simp [handleSsoRedirectOnsiteToken, encrypt_rsa, decrypt_rsa, bind, Except.bind,
      pure, Except.pure]
  · simp [ssoQueuePop, pyFalsyStr, List.getLast?_concat, List.dropLast_concat]

/-- Loop state hitting `ACCOUNT_LOCKED` with a live persisted session
token for user `a@b.com`. -/
def c3State : LoopState :=
  { params := { user := "a@b.com", session_token := some "tok" },
    resp := some { loginState := proto.ACCOUNT_LOCKED },
    clone_code_bytes := none, is_alternate_login := false,
    encryptedDeviceToken := [], transport := [], env := {} }

/-- C3 counterexample: on `ACCOUNT_LOCKED` the flow raises the error
mentioning the username, but unlike the `DEVICE_ACCOUNT_LOCKED` /
`DEVICE_LOCKED` branches it never calls `clear_session`: the session
token is still `tok` when the error propagates, so the claim that the
persisted session token is cleared before the error is returned fails
at this input. -/
theorem accountLocked_session_not_cleared :
    loginStep 1 c3State =
      (StepOut.raised (PyError.genericException "\n*** User account `a@b.com` is LOCKED ***\n")
        { user := "a@b.com", session_token := some "tok" }, []) ∧
    (match loginStep 1 c3State with
     | (StepOut.raised _ p, _) => p.session_token
     | _ => none) = some "tok" := by
  exact ⟨rfl, rfl⟩

/-- C3 as amended: on the `ACCOUNT_LOCKED` start-login state, `run`
fails with an error whose message embeds the username, but the session
is left exactly as it was — the persisted session token is NOT cleared
on this path (session clearing happens only on the
`DEVICE_ACCOUNT_LOCKED` / `DEVICE_LOCKED` branches). -/
theorem accountLocked_raises_username_session_kept (fuel : Nat) (p : KeeperParams)
    (r : LoginResponse) (cc : Option (List Nat)) (alt : Bool) (edt : List Nat)
    (t : List RawResponse) (env : FlowEnv) :
    loginStep fuel
        ⟨p, some { r with loginState := proto.ACCOUNT_LOCKED }, cc, alt, edt, t, env⟩ =
      (StepOut.raised (PyError.genericException
        ("\n*** User account `" ++ p.user ++ "` is LOCKED ***\n")) p, []) ∧
    loginLoop (fuel + 1)
        ⟨p, some { r with loginState := proto.ACCOUNT_LOCKED }, cc, alt, edt, t, env⟩ =
      (LoopResult.raised (PyError.genericException
        ("\n*** User account `" ++ p.user ++ "` is LOCKED ***\n")) p, []) := by
  have hs : ∀ f : Nat,
      loginStep f ⟨p, some { r with loginState := proto.ACCOUNT_LOCKED }, cc, alt, edt, t, env⟩ =
        (StepOut.raised (PyError.genericException
          ("\n*** User account `" ++ p.user ++ "` is LOCKED ***\n")) p, []) := by
    intro f
    simp [loginStep, proto.ACCOUNT_LOCKED, proto.DEVICE_APPROVAL_REQUIRED, proto.REQUIRES_2FA,
      proto.REQUIRES_USERNAME, proto.REDIRECT_ONSITE_SSO, proto.REDIRECT_CLOUD_SSO,
      proto.REQUIRES_DEVICE_ENCRYPTED_DATA_KEY, proto.REQUIRES_ACCOUNT_CREATION,
      proto.REGION_REDIRECT, proto.REQUIRES_AUTH_HASH, proto.DEVICE_ACCOUNT_LOCKED,
      proto.DEVICE_LOCKED]
  exact ⟨hs fuel, by simp [loginLoop, hs (fuel + 1)]⟩

/-- C7: a `RequiresAuthHash` response with an empty salt list makes the
flow raise the `account-recovery-required` error before anything else:
the emitted trace is empty, so no password prompt happens and no auth
verifier is derived, and the session is returned untouched. -/
theorem authHash_empty_salt_recovery_required (fuel : Nat) (p : KeeperParams)
    (r : LoginResponse) (cc : Option (List Nat)) (alt : Bool) (edt : List Nat)
    (t : List RawResponse) (env : FlowEnv) :
    loginStep fuel
        ⟨p, some { r with loginState := proto.REQUIRES_AUTH_HASH, salt := [] }, cc, alt, edt, t, env⟩ =
      (StepOut.raised
        (PyError.keeperApiError "account-recovery-required" accountRecoveryRequiredMsg) p, []) ∧
    FlowEvent.promptPassword ∉
      (loginStep fuel
        ⟨p, some { r with loginState := proto.REQUIRES_AUTH_HASH, salt := [] }, cc, alt, edt, t, env⟩).2 ∧
    FlowEvent.deriveAuthVerifier ∉
      (loginStep fuel
        ⟨p, some { r with loginState := proto.REQUIRES_AUTH_HASH, salt := [] }, cc, alt, edt, t, env⟩).2 := by
  have h1 : loginStep fuel
      ⟨p, some { r with loginState := proto.REQUIRES_AUTH_HASH, salt := [] }, cc, alt, edt, t, env⟩ =
      (StepOut.raised
        (PyError.keeperApiError "account-recovery-required" accountRecoveryRequiredMsg) p, []) := by
    simp [loginStep, proto.REQUIRES_AUTH_HASH, proto.DEVICE_APPROVAL_REQUIRED, proto.REQUIRES_2FA,
      proto.REQUIRES_USERNAME, proto.REDIRECT_ONSITE_SSO, proto.REDIRECT_CLOUD_SSO,
      proto.REQUIRES_DEVICE_ENCRYPTED_DATA_KEY, proto.REQUIRES_ACCOUNT_CREATION,
      proto.REGION_REDIRECT]
  exact ⟨h1, by simp [h1], by simp [h1]⟩

/-- C6: for every login-state value outside the fifteen explicitly
handled states, the dispatch raises the `UNKNOWN LOGIN STATE` error
carrying the raw state value, and the loop terminates immediately with
that error for every positive fuel bound — it neither loops forever nor
exits without an error. -/
theorem unknown_login_state_raises (fuel : Nat) (p : KeeperParams) (r : LoginResponse)
    (cc : Option (List Nat)) (alt : Bool) (edt : List Nat) (t : List RawResponse)
    (env : FlowEnv) (h : r.loginState ∉ handledLoginStates) :
    loginStep fuel ⟨p, some r, cc, alt, edt, t, env⟩ =
      (StepOut.raised (PyError.genericException
        ("UNKNOWN LOGIN STATE [" ++ toString r.loginState ++ "]")) p, []) ∧
    loginLoop (fuel + 1) ⟨p, some r, cc, alt, edt, t, env⟩ =
      (LoopResult.raised (PyError.genericException
        ("UNKNOWN LOGIN STATE [" ++ toString r.loginState ++ "]")) p, []) := by
  simp only [handledLoginStates, List.mem_cons, List.not_mem_nil, or_false, not_or] at h
  obtain ⟨h1, h2, h3, h4, h5, h6, h7, h8, h9, h10, h11, h12, h13, h14, h15⟩ := h
  have hs : ∀ f : Nat, loginStep f ⟨p, some r, cc, alt, edt, t, env⟩ =
      (StepOut.raised (PyError.genericException
        ("UNKNOWN LOGIN STATE [" ++ toString r.loginState ++ "]")) p, []) := by
    intro f
    simp [loginStep, h1, h2, h3, h4, h5, h6, h7, h8, h9, h10, h11, h12, h13, h14, h15]
  exact ⟨hs fuel, by simp [loginLoop, hs (fuel + 1)]⟩

theorem unknown_login_state_raises_witness :
    loginStep 3 ⟨{}, some { loginState := 99 }, none, false, [], [], {}⟩ =
      (StepOut.raised (PyError.genericException "UNKNOWN LOGIN STATE [99]") {}, []) ∧
    loginLoop 4 ⟨{}, some { loginState := 99 }, none, false, [], [], {}⟩ =
      (LoopResult.raised (PyError.genericException "UNKNOWN LOGIN STATE [99]") {}, []) :=
  unknown_login_state_raises 3 {} { loginState := 99 } none false [] [] {} (by decide)

/-- C10: a structured transport response to `startLoginMessage` missing
either the `error` or the `message` key — or a response that is neither
an opaque payload nor a structured map — makes the Python function fall
off its end, yielding `None` in place of a login response or a typed
error; the state-machine loop then reads `loginState` off `None` and
crashes with an `AttributeError` rather than failing with a typed
authentication error. -/
theorem startLogin_none_then_loop_crash (fuel : Nat) (p : KeeperParams) (edt : List Nat)
    (d : List (String × String)) (rest : List RawResponse) (cc : Option (List Nat))
    (lt : String)
    (hmiss : (d.lookup "error").isNone ∨ (d.lookup "message").isNone) :
    (startLoginMessage (fuel + 1) p edt (RawResponse.dict d :: rest) cc lt).result =
      Except.ok none ∧
    (startLoginMessage (fuel + 1) p edt (RawResponse.other :: rest) cc lt).result =
      Except.ok none ∧
    ∀ st : LoopState, st.resp = none →
      loginStep fuel st = (StepOut.raised (PyError.attributeError noneLoginStateMsg) st.params, []) := by
  have hguard : ¬((d.lookup "error").isSome ∧ (d.lookup "message").isSome) := by
    rcases hmiss with h | h <;>
      · intro hc
        rw [Option.isNone_iff_eq_none] at h
        rw [h] at hc
        simp at hc
  refine ⟨?_, ?_, ?_⟩
  · simp only [startLoginMessage]
    rw [if_neg hguard]
  · simp [startLoginMessage]
  · intro st h
    obtain ⟨sp, sr, scc, salt2, sedt, str2, senv⟩ := st
    simp only at h
    subst h
    simp [loginStep]

theorem startLogin_none_then_loop_crash_witness :
    loginStep 0 ⟨{}, none, none, false, [], [], {}⟩ =
      (StepOut.raised (PyError.attributeError noneLoginStateMsg) {}, []) :=
  (startLogin_none_then_loop_crash 0 {} [] [("error", "x")] [] none "NORMAL"
    (Or.inr (by decide))).2.2 ⟨{}, none, none, false, [], [], {}⟩ rfl

/-- Login response redirecting to on-site SSO. -/
def c4RespSso : LoginResponse :=
  { loginState := proto.REDIRECT_ONSITE_SSO, url := "https://sso", encryptedLoginToken := [5] }

/-- The response the server would return to the resumed login. -/
def c4Next : LoginResponse := { loginState := proto.LOGGED_IN }

/-- Loop state at the SSO redirect whose handler returns a login token. -/
def c4StateSuccess : LoopState :=
  { params := { user := "U@B.com", server := "srv" }, resp := some c4RespSso,
    clone_code_bytes := none, is_alternate_login := false, encryptedDeviceToken := [1],
    transport := [RawResponse.bytes c4Next], env := { ssoToken := some [9] } }

/-- Same state, but the SSO handler reports the explicit fallback. -/
def c4StateFallback : LoopState :=
  { c4StateSuccess with env := {} }

/-- C4, evaluated at the failing input: after a successful SSO redirect
the loop calls `resume_login` passing `loginMethod='AFTER_SSO'`, but
`resume_login` only sets the request's login method under `if
cloneCode:` — with no clone code the built request leaves
`loginMethod` at its protobuf default, so the resume request does NOT
carry `AFTER_SSO` (first two conjuncts). The fallback half of the claim
matches the code: with no token the attempt is marked alternate-login
and start-login is reissued with the `ALTERNATE` login type (last two
conjuncts). -/
theorem resume_after_sso_login_method_dropped :
    (resume_login_request { user := "U@B.com", server := "srv" } [9] [1] none "NORMAL"
        "AFTER_SSO").loginMethod = none ∧
    (loginStep 1 c4StateSuccess).2 = [FlowEvent.resumeLoginCall "srv" none] ∧
    (loginStep 1 c4StateFallback).2 = [FlowEvent.startLoginCall "srv" "ALTERNATE"] ∧
    loginStep 1 c4StateFallback =
      (StepOut.next { c4StateFallback with resp := some c4Next, transport := [], is_alternate_login := true },
        [FlowEvent.startLoginCall "srv" "ALTERNATE"]) := by
  exact ⟨rfl, rfl, rfl, rfl⟩

/-- Decomposing a singleton list as `l1 ++ x :: l2`. -/
theorem singleton_eq_append_cons {α : Type} {a x : α} {l1 l2 : List α}
    (h : [a] = l1 ++ x :: l2) : l1 = [] ∧ a = x ∧ l2 = [] := by
  cases l1 with
  | nil =>
    simp only [List.nil_append] at h
    injection h with h1 h2
    exact ⟨rfl, h1, h2.symm⟩
  | cons b l1 =>
    simp only [List.cons_append] at h
    injection h with h1 h2
    exact absurd h2.symm (by simp)

/-- Decomposing a cons as `l1 ++ x :: l2`: either the marked element is
the head, or it lies in the tail. -/
theorem cons_eq_append_cons {α : Type} {a x : α} {t l1 l2 : List α}
    (h : a :: t = l1 ++ x :: l2) :
    (l1 = [] ∧ x = a ∧ l2 = t) ∨ (∃ l1x, l1 = a :: l1x ∧ t = l1x ++ x :: l2) := by
  cases l1 with
  | nil =>
    simp only [List.nil_append] at h
    injection h with h1 h2
    exact Or.inl ⟨rfl, h1.symm, h2.symm⟩
  | cons c l1 =>
    simp only [List.cons_append] at h
    injection h with h1 h2
    subst h1
    exact Or.inr ⟨l1, rfl, h2⟩

/-- The device re-registration call contributes exactly one event, the
registration in the session's current region, whatever the transport
answers. -/
theorem register_device_trace (p : KeeperParams) (edt : List Nat) (t : List RawResponse) :
    (register_device_in_region p edt t).trace = [FlowEvent.registerDeviceInRegion p.server] := by
  cases t with
  | nil => rfl
  | cons r rest =>
    cases r with
    | bytes resp => rfl
    | dict d =>
      simp only [register_device_in_region]
      split <;> rfl
    | other => rfl

/-- Shape of the trace of one `startLoginMessage` activation: either a
lone fresh start-login call, or a fresh start-login call followed by a
device registration in the region the retry targets and then the trace
of the retry itself (empty when the registration raised). -/
theorem slm_trace_cases (fuel : Nat) (p : KeeperParams) (edt : List Nat)
    (t : List RawResponse) (cc : Option (List Nat)) (lt : String) :
    (startLoginMessage (fuel + 1) p edt t cc lt).trace =
      [FlowEvent.startLoginCall p.server lt] ∨
    ∃ p2 rest2,
      (startLoginMessage (fuel + 1) p edt t cc lt).trace =
        [FlowEvent.startLoginCall p.server lt, FlowEvent.registerDeviceInRegion p2.server] ∨
      (startLoginMessage (fuel + 1) p edt t cc lt).trace =
        FlowEvent.startLoginCall p.server lt ::
          FlowEvent.registerDeviceInRegion p2.server ::
            (startLoginMessage fuel p2 edt rest2 none lt).trace := by
  cases t with
  | nil => exact Or.inl rfl
  | cons r rest =>
    cases r with
    | bytes resp => exact Or.inl rfl
    | other => exact Or.inl rfl
    | dict d =>
      by_cases hg : (d.lookup "error").isSome ∧ (d.lookup "message").isSome
      · by_cases hrr : d.lookup "error" = some "region_redirect"
        · rcases hh : d.lookup "region_host" with _ | host
          · left
            simp only [startLoginMessage]
            rw [if_pos hg, if_pos hrr, hh]
          · right
            refine ⟨{ p with server := host },
              (register_device_in_region { p with server := host } edt rest).transport, ?_⟩
            rcases hreg : (register_device_in_region { p with server := host } edt rest).result
              with e | u
            · left
              simp only [startLoginMessage]
              rw [if_pos hg, if_pos hrr, hh]
              simp [hreg, register_device_trace]
            · right
              simp only [startLoginMessage]
              rw [if_pos hg, if_pos hrr, hh]
              simp [hreg, register_device_trace]
        · by_cases hdn : d.lookup "error" = some "device_not_registered"
          · rcases hai : d.lookup "additional_info" with _ | ai
            · left
              simp only [startLoginMessage]
              rw [if_pos hg, if_neg hrr, if_pos hdn, hai]
            · by_cases hv : ai = "invalid device token, not registered in this region"
              · right
                refine ⟨p, (register_device_in_region p edt rest).transport, ?_⟩
                rcases hreg : (register_device_in_region p edt rest).result with e | u
                · left
                  simp only [startLoginMessage]
                  rw [if_pos hg, if_neg hrr, if_pos hdn, hai]
                  simp [hv, hreg, register_device_trace]
                · right
                  simp only [startLoginMessage]
                  rw [if_pos hg, if_neg hrr, if_pos hdn, hai]
                  simp [hv, hreg, register_device_trace]
              · left
                simp only [startLoginMessage]
                rw [if_pos hg, if_neg hrr, if_pos hdn, hai]
                simp [hv]
          · left
            simp only [startLoginMessage]
            rw [if_pos hg, if_neg hrr, if_neg hdn]
      · left
        simp only [startLoginMessage]
        rw [if_neg hg]

/-- Every fresh start-login call in a `startLoginMessage` trace either
targets the server the activation started from or is preceded in the
trace by a device registration in the very region it targets. -/
theorem slm_trace_registered (fuel : Nat) :
    ∀ (p : KeeperParams) (edt : List Nat) (t : List RawResponse) (cc : Option (List Nat))
      (lt lt2 s : String) (l1 l2 : List FlowEvent),
      (startLoginMessage fuel p edt t cc lt).trace = l1 ++ FlowEvent.startLoginCall s lt2 :: l2 →
      s = p.server ∨ FlowEvent.registerDeviceInRegion s ∈ l1 := by
  induction fuel with
  | zero =>
    intro p edt t cc lt lt2 s l1 l2 h
    simp only [startLoginMessage] at h
    rcases l1 with _ | ⟨a, l1⟩ <;> simp_all
  | succ fuel ih =>
    intro p edt t cc lt lt2 s l1 l2 h
    rcases slm_trace_cases fuel p edt t cc lt with hc | ⟨p2, rest2, hc | hc⟩
    · rw [hc] at h
      obtain ⟨hl1, hev, hl2⟩ := singleton_eq_append_cons h
      injection hev with e1 e2
      exact Or.inl e1.symm
    · rw [hc] at h
      rcases cons_eq_append_cons h with ⟨hl1, hx, hl2⟩ | ⟨l1x, hl1, ht⟩
      · injection hx with e1 e2
        exact Or.inl e1
      · obtain ⟨hl1x, hx, hl2⟩ := singleton_eq_append_cons ht
        exact absurd hx (by simp)
    · rw [hc] at h
      rcases cons_eq_append_cons h with ⟨hl1, hx, hl2⟩ | ⟨l1x, hl1, ht⟩
      · injection hx with e1 e2
        exact Or.inl e1
      · rcases cons_eq_append_cons ht with ⟨hl1x, hx, hl2⟩ | ⟨l1y, hl1x, ht2⟩
        · exact absurd hx (by simp)
        · rcases ih p2 edt rest2 none lt lt2 s l1y l2 ht2 with hs | hm
          · subst hl1; subst hl1x
            right
            rw [hs]
            simp
          · subst hl1; subst hl1x
            right
            simp [hm]

/-- A `startLoginMessage` activation never issues a resume-login
request: its trace holds no `resumeLoginCall` event — the retries after
region redirects restart from scratch. -/
theorem slm_trace_no_resume (fuel : Nat) :
    ∀ (p : KeeperParams) (edt : List Nat) (t : List RawResponse) (cc : Option (List Nat))
      (lt s : String) (m : Option String),
      FlowEvent.resumeLoginCall s m ∉ (startLoginMessage fuel p edt t cc lt).trace := by
  induction fuel with
  | zero =>
    intro p edt t cc lt s m
    simp [startLoginMessage]
  | succ fuel ih =>
    intro p edt t cc lt s m
    rcases slm_trace_cases fuel p edt t cc lt with hc | ⟨p2, rest2, hc | hc⟩ <;>
      rw [hc] <;> simp [ih]

/-- Shape of the trace of one `resume_login` call: the resume-login
request itself, optionally followed on a region redirect by a device
registration in the new region and the trace of a fresh
`startLoginMessage` restart. -/
theorem resume_trace_cases (fuel : Nat) (p : KeeperParams) (elt edt : List Nat)
    (t : List RawResponse) (cc : Option (List Nat)) (lt lm : String) :
    (resume_login fuel p elt edt t cc lt lm).trace =
      [FlowEvent.resumeLoginCall p.server
        (resume_login_request p elt edt cc lt lm).loginMethod] ∨
    ∃ p2 rest2,
      (resume_login fuel p elt edt t cc lt lm).trace =
        [FlowEvent.resumeLoginCall p.server
          (resume_login_request p elt edt cc lt lm).loginMethod,
         FlowEvent.registerDeviceInRegion p2.server] ∨
      (resume_login fuel p elt edt t cc lt lm).trace =
        FlowEvent.resumeLoginCall p.server
            (resume_login_request p elt edt cc lt lm).loginMethod ::
          FlowEvent.registerDeviceInRegion p2.server ::
            (startLoginMessage fuel p2 edt rest2 none lt).trace := by
  cases t with
  | nil => exact Or.inl rfl
  | cons r rest =>
    cases r with
    | bytes resp => exact Or.inl rfl
    | other => exact Or.inl rfl
    | dict d =>
      by_cases hg : (d.lookup "error").isSome ∧ (d.lookup "message").isSome
      · by_cases hrr : d.lookup "error" = some "region_redirect"
        · rcases hh : d.lookup "region_host" with _ | host
          · left
            simp only [resume_login]
            rw [if_pos hg, if_pos hrr, hh]
          · right
            refine ⟨{ p with server := host },
              (register_device_in_region { p with server := host } edt rest).transport, ?_⟩
            rcases hreg : (register_device_in_region { p with server := host } edt rest).result
              with e | u
            · left
              simp only [resume_login]
              rw [if_pos hg, if_pos hrr, hh]
              simp [hreg, register_device_trace]
            · right
              simp only [resume_login]
              rw [if_pos hg, if_pos hrr, hh]
              simp [hreg, register_device_trace]
        · by_cases hrc : d.lookup "error" = some "restricted_client_type"
          · left
            simp only [resume_login]
            rw [if_pos hg, if_neg hrr, if_pos hrc]
          · left
            simp only [resume_login]
            rw [if_pos hg, if_neg hrr, if_neg hrc]
      · left
        simp only [resume_login]
        rw [if_neg hg]

/-- C5: whenever a region redirect occurs — the `REGION_REDIRECT` login
state (first two conjuncts) or a `region_redirect` transport error
during a fresh or resumed start-login call (last two conjuncts) — the
device is re-registered in the new region before any subsequent
start-login call targeting a region other than the one the activation
started from, and the login restarts with a fresh start-login request:
no resume-login request (which would carry the stale login token) ever
follows a region redirect. -/
theorem region_redirect_registers_before_start_login (fuel : Nat) (p : KeeperParams)
    (r : LoginResponse) (cc : Option (List Nat)) (alt : Bool) (edt : List Nat)
    (t : List RawResponse) (env : FlowEnv) :
    (∀ (l1 l2 : List FlowEvent) (s lt2 : String),
      (loginStep fuel
          ⟨p, some { r with loginState := proto.REGION_REDIRECT }, cc, alt, edt, t, env⟩).2 =
        l1 ++ FlowEvent.startLoginCall s lt2 :: l2 →
      FlowEvent.registerDeviceInRegion s ∈ l1) ∧
    (∀ (s : String) (m : Option String),
      FlowEvent.resumeLoginCall s m ∉
        (loginStep fuel
          ⟨p, some { r with loginState := proto.REGION_REDIRECT }, cc, alt, edt, t, env⟩).2) ∧
    (∀ (p2 : KeeperParams) (edt2 : List Nat) (t2 : List RawResponse) (cc2 : Option (List Nat))
        (lt lt2 s : String) (l1 l2 : List FlowEvent),
      (startLoginMessage fuel p2 edt2 t2 cc2 lt).trace = l1 ++ FlowEvent.startLoginCall s lt2 :: l2 →
      s = p2.server ∨ FlowEvent.registerDeviceInRegion s ∈ l1) ∧
    (∀ (p2 : KeeperParams) (elt edt2 : List Nat) (t2 : List RawResponse)
        (cc2 : Option (List Nat)) (lt lm lt2 s : String) (l1 l2 : List FlowEvent),
      (resume_login fuel p2 elt edt2 t2 cc2 lt lm).trace = l1 ++ FlowEvent.startLoginCall s lt2 :: l2 →
      FlowEvent.registerDeviceInRegion s ∈ l1) := by
  have htr :
      (loginStep fuel
          ⟨p, some { r with loginState := proto.REGION_REDIRECT }, cc, alt, edt, t, env⟩).2 =
        FlowEvent.registerDeviceInRegion r.stateSpecificValue :: [] ∨
      (loginStep fuel
          ⟨p, some { r with loginState := proto.REGION_REDIRECT }, cc, alt, edt, t, env⟩).2 =
        FlowEvent.registerDeviceInRegion r.stateSpecificValue ::
          (startLoginMessage fuel { p with server := r.stateSpecificValue } edt
            (register_device_in_region { p with server := r.stateSpecificValue } edt t).transport
            none "NORMAL").trace := by
    rcases hreg : (register_device_in_region { p with server := r.stateSpecificValue } edt t).result
      with e | u
    · left
      simp [loginStep, proto.REGION_REDIRECT, proto.DEVICE_APPROVAL_REQUIRED, proto.REQUIRES_2FA,
        proto.REQUIRES_USERNAME, proto.REDIRECT_ONSITE_SSO, proto.REDIRECT_CLOUD_SSO,
        proto.REQUIRES_DEVICE_ENCRYPTED_DATA_KEY, proto.REQUIRES_ACCOUNT_CREATION,
        hreg, register_device_trace]
    · rcases hout : (startLoginMessage fuel { p with server := r.stateSpecificValue } edt
          (register_device_in_region { p with server := r.stateSpecificValue } edt t).transport
          none "NORMAL").result with e2 | r2
      · right
        simp [loginStep, proto.REGION_REDIRECT, proto.DEVICE_APPROVAL_REQUIRED, proto.REQUIRES_2FA,
          proto.REQUIRES_USERNAME, proto.REDIRECT_ONSITE_SSO, proto.REDIRECT_CLOUD_SSO,
          proto.REQUIRES_DEVICE_ENCRYPTED_DATA_KEY, proto.REQUIRES_ACCOUNT_CREATION,
          hreg, hout, register_device_trace]
      · right
        simp [loginStep, proto.REGION_REDIRECT, proto.DEVICE_APPROVAL_REQUIRED, proto.REQUIRES_2FA,
          proto.REQUIRES_USERNAME, proto.REDIRECT_ONSITE_SSO, proto.REDIRECT_CLOUD_SSO,
          proto.REQUIRES_DEVICE_ENCRYPTED_DATA_KEY, proto.REQUIRES_ACCOUNT_CREATION,
          hreg, hout, register_device_trace]
  refine ⟨?_, ?_, slm_trace_registered fuel, ?_⟩
  · intro l1 l2 s lt2 h
    rcases htr with htr | htr
    · rw [htr] at h
      rcases cons_eq_append_cons h with ⟨hl1, hx, hl2⟩ | ⟨l1x, hl1, ht2⟩
      · exact absurd hx (by simp)
      · rcases l1x with _ | ⟨b, l1x⟩ <;> simp at ht2
    · rw [htr] at h
      rcases cons_eq_append_cons h with ⟨hl1, hx, hl2⟩ | ⟨l1x, hl1, ht2⟩
      · exact absurd hx (by simp)
      · rcases slm_trace_registered fuel { p with server := r.stateSpecificValue } edt
            (register_device_in_region { p with server := r.stateSpecificValue } edt t).transport
            none "NORMAL" lt2 s l1x l2 ht2 with hs | hm
        · subst hl1
          rw [hs]
          simp
        · subst hl1
          simp [hm]
  · intro s m
    rcases htr with htr | htr <;> rw [htr] <;> simp [slm_trace_no_resume fuel]
  · intro p2 elt edt2 t2 cc2 lt lm lt2 s l1 l2 h
    rcases resume_trace_cases fuel p2 elt edt2 t2 cc2 lt lm with hc | ⟨p3, rest2, hc | hc⟩
    · rw [hc] at h
      obtain ⟨hl1, hx, hl2⟩ := singleton_eq_append_cons h
      exact absurd hx (by simp)
    · rw [hc] at h
      rcases cons_eq_append_cons h with ⟨hl1, hx, hl2⟩ | ⟨l1x, hl1, ht2⟩
      · exact absurd hx (by simp)
      · obtain ⟨hl1x, hx, hl2⟩ := singleton_eq_append_cons ht2
        exact absurd hx (by simp)
    · rw [hc] at h
      rcases cons_eq_append_cons h with ⟨hl1, hx, hl2⟩ | ⟨l1x, hl1, ht2⟩
      · exact absurd hx (by simp)
      · rcases cons_eq_append_cons ht2 with ⟨hl1x, hx, hl2⟩ | ⟨l1y, hl1x, ht3⟩
        · exact absurd hx (by simp)
        · rcases slm_trace_registered fuel p3 edt2 rest2 none lt lt2 s l1y l2 ht3 with hs | hm
          · subst hl1; subst hl1x
            rw [hs]
            simp
          · subst hl1; subst hl1x
            simp [hm]

theorem region_redirect_registers_before_start_login_witness :
    ("eu" : String) = "us" ∨
      FlowEvent.registerDeviceInRegion "eu" ∈
        [FlowEvent.startLoginCall "us" "NORMAL", FlowEvent.registerDeviceInRegion "eu"] :=
  (region_redirect_registers_before_start_login 2 {} {} none false [] [] {}).2.2.1
    { server := "us" } []
    [RawResponse.dict [("error", "region_redirect"), ("message", "m"), ("region_host", "eu")],
     RawResponse.dict [("error", "exists")], RawResponse.bytes {}]
    none "NORMAL" "NORMAL" "eu"
    [FlowEvent.startLoginCall "us" "NORMAL", FlowEvent.registerDeviceInRegion "eu"] []
    rfl

theorem authHash_empty_salt_recovery_required_witness :
    loginStep 1 ⟨{}, some { loginState := proto.REQUIRES_AUTH_HASH, salt := [] }, none, false,
        [], [], {}⟩ =
      (StepOut.raised
        (PyError.keeperApiError "account-recovery-required" accountRecoveryRequiredMsg) {}, []) :=
  (authHash_empty_salt_recovery_required 1 {} {} none false [] [] {}).1
